import Mathlib

/-!
Verification development for the `gitbackup` tool (`gitbackup.py`): a one-shot
script that lists a GitHub user's repositories and migrates each of them into a
Gitea organization.  The Python source is shallowly embedded below: pure string
helpers become Lean functions, HTTP calls are oracles (pure functions supplied
as parameters), and `main`'s orchestration is a pure function producing the
trace of destination-API calls and prints it performs.
-/

namespace Gitbackup

open RegularExpression

/-- A parsed JSON object, reduced to its key/value pairs (the program only ever
inspects string-keyed fields such as `id` and `message`). -/
abbrev JsonObj := List (String × String)

/-- Python `k in dict`. -/
def hasKey (j : JsonObj) (k : String) : Bool :=
  j.any fun p => p.1 == k

/-! ## Regular expressions: model of Python `re.match`

Python's `re.match(pattern, s)` anchors the pattern at the start of `s` but
does not require it to consume all of `s`: it succeeds iff some prefix of `s`
is in the pattern's language.  We model patterns with Mathlib's
`RegularExpression` and define the anchored-prefix matcher accordingly. -/

/-- Python `re.match(pattern, s) is not None`: some prefix of `s` (including
possibly the empty or the whole string) is in the language of `pattern`. -/
def reMatch (pattern : RegularExpression Char) (s : String) : Bool :=
  (List.range (s.data.length + 1)).any fun n => pattern.rmatch (s.data.take n)

/-- A regular expression matching exactly the given character list. -/
def charLit : List Char → RegularExpression Char
  | [] => 1
  | c :: cs => char c * charLit cs

/-- A regular expression matching exactly the given string (a regex with no
metacharacters, e.g. the pattern `repo`). -/
def strLit (s : String) : RegularExpression Char :=
  charLit s.data

/-- The pattern `https?://` from `is_url` (the `^` anchor of the source is
subsumed by `re.match`'s own anchoring). -/
def urlRegex : RegularExpression Char :=
  strLit "http" * (char 's' + 1) * strLit "://"

/-- `is_url` from the source: `re.match(r'^https?://', url) is not None`. -/
def is_url (url : String) : Bool :=
  reMatch urlRegex url

/-! ## URL owner extraction -/

/-- Python `str.split('/')`: split on every `'/'`, keeping empty pieces. -/
def pySplitSlash : List Char → List (List Char)
  | [] => [[]]
  | c :: cs =>
    match pySplitSlash cs with
    | [] => [[]]
    | h :: t => if c = '/' then [] :: h :: t else (c :: h) :: t

/-- `get_user_from_url` from the source: `url.split('/')[-2]`.  Python's
negative indexing raises `IndexError` when the list has fewer than two
elements, embedded here as `none`. -/
def get_user_from_url (url : String) : Option String :=
  let parts := pySplitSlash url.data
  if h : 2 ≤ parts.length then
    some (String.mk (parts.get ⟨parts.length - 2, by omega⟩))
  else none

/-- `string_or_url` from the source: extract the owner from a URL, pass other
strings through unchanged. -/
def string_or_url (string : String) : Option String :=
  if is_url string then get_user_from_url string else some string

/-! ## HTTP plumbing: `requests` responses, `raise_for_status`,
`handle_response`, `get_repositories` -/

/-- A source repository record; the program reads `repo['name']` and
`repo['clone_url']`. -/
structure Repo where
  name : String
  clone_url : String
deriving DecidableEq, Repr

/-- Errors raised by the `requests` layer. -/
inductive ReqError where
  /-- `requests.HTTPError` raised by `Response.raise_for_status`. -/
  | http_error (status : Nat)
  /-- `requests.exceptions.JSONDecodeError` raised by `Response.json()`. -/
  | json_decode_error
deriving DecidableEq, Repr

/-- `requests.Response.raise_for_status()`: raises exactly on a 4xx client
error or 5xx server error status. -/
def raise_for_status (status : Nat) : Option ReqError :=
  if 400 ≤ status ∧ status < 600 then some (.http_error status) else none

/-- An HTTP response as the program observes it: the status code and the
outcome of `response.json()` (`none` when the body is not valid JSON). -/
structure Response where
  status_code : Nat
  jsonBody : Option JsonObj

/-- A response to the source listing call, whose JSON body (when it parses) is
a list of repository objects. -/
structure ListResponse where
  status_code : Nat
  jsonBody : Option (List Repo)

/-- The `handle_response` decorator from the source, applied to the response
the wrapped call produced: on a non-200 status, try `response.json()` and
return it; if that raises, `raise_for_status()`; should that not raise either
(non-200 success status), fall through to the final `response.json()`, which
raises the decode error again.  On a 200 status, return `response.json()`. -/
def handle_response (response : Response) : Except ReqError JsonObj :=
  if response.status_code ≠ 200 then
    match response.jsonBody with
    | some j => .ok j
    | none =>
      match raise_for_status response.status_code with
      | some e => .error e
      | none => .error .json_decode_error
  else
    match response.jsonBody with
    | some j => .ok j
    | none => .error .json_decode_error

/-- `get_repositories` from the source: GET the owner's repository list from
the source API (`http_get` is the transport oracle), `raise_for_status()`,
then return the parsed JSON body. -/
def get_repositories (http_get : String → ListResponse) (owner : String) :
    Except ReqError (List Repo) :=
  let response := http_get ("https://api.github.com/users/" ++ owner ++ "/repos")
  match raise_for_status response.status_code with
  | some e => .error e
  | none =>
    match response.jsonBody with
    | some l => .ok l
    | none => .error .json_decode_error

/-! ## The Gitea client -/

/-- The `GiteaClient` state: instance base URL and token. -/
structure GiteaClient where
  instance_url : String
  token : String
deriving DecidableEq, Repr

/-- `GiteaClient.__init__`: `ValueError` if `instance` or `token` is `None`
(embedded as `.error`); an instance string that is not a URL gets `https://`
prepended. -/
def GiteaClient.init (instance_arg : Option String) (token : Option String) :
    Except String GiteaClient :=
  match instance_arg with
  | none => .error "instance cannot be None"
  | some inst =>
    let inst := if is_url inst then inst else "https://" ++ inst
    match token with
    | none => .error "token cannot be None"
    | some tok => .ok ⟨inst, tok⟩

/-! ## `main`: argument record, API oracle, event trace -/

/-- The parsed command-line arguments of `main` that the post-credential part
reads.  `private` and `include` are Lean keywords, hence `priv`,
`include_pat`; the filters carry the compiled pattern (or `none` when the
flag was not given). -/
structure Args where
  mirror : Bool
  wiki : Bool
  yes : Bool
  internal : Bool
  priv : Bool
  include_pat : Option (RegularExpression Char)
  exclude_pat : Option (RegularExpression Char)
  organization : Option String

/-- The destination (Gitea) API as a pure oracle: for each operation, the
parsed JSON body `handle_response` hands back to `main`. -/
structure GiteaApi where
  get_organization : String → JsonObj
  create_organization : String → String → JsonObj
  get_repository : String → String → JsonObj
  migrate_repository : String → String → String → Bool → Bool → Bool → JsonObj

/-- One observable action of `main`: a console print, a destination API call
(with its arguments), or the pacing `time.sleep(1)`. -/
inductive Event where
  | print (msg : String)
  | get_org (name : String)
  | create_org (name : String) (visibility : String)
  | get_repo (owner : String) (name : String)
  | migrate (clone_addr : String) (owner : String) (name : String)
      (priv : Bool) (mirror : Bool) (wiki : Bool)
  | sleep
deriving DecidableEq, Repr

/-- Python `str.lower()` (ASCII case folding, which is all the program
compares against). -/
def pyLower (s : String) : String :=
  String.mk (s.data.map Char.toLower)

/-- `ask_confirmation` from the source; `response` is what `input()` would
return (not read when `skip_confirmation` is set). -/
def ask_confirmation (message : String) (skip_confirmation : Bool)
    (response : String) : Bool :=
  if skip_confirmation then true else pyLower response == "y"

/-- The include-filter test of the loop:
`args.include is not None and not re.match(args.include, repo_name)`. -/
def includeSkips (a : Args) (repo_name : String) : Bool :=
  match a.include_pat with
  | none => false
  | some pat => !(reMatch pat repo_name)

/-- The exclude-filter test of the loop:
`args.exclude is not None and re.match(args.exclude, repo_name)`. -/
def excludeSkips (a : Args) (repo_name : String) : Bool :=
  match a.exclude_pat with
  | none => false
  | some pat => reMatch pat repo_name

/-- The body of `main`'s `for index, repo in enumerate(repolist)` loop, as the
trace of events it emits.  `total` is `len(repolist)`; a migration result
carrying a `message` key makes the whole function return, so the trace stops
there. -/
def migrateLoop (g : GiteaApi) (a : Args) (org : String) (total : Nat) :
    Nat → List Repo → List Event
  | _, [] => []
  | index, repo :: rest =>
    Event.print ("Cloning " ++ repo.name ++ " (" ++ Nat.repr (index + 1) ++ "/" ++
        Nat.repr total ++ ")...") ::
    if includeSkips a repo.name then
      Event.print ("Repository " ++ repo.name ++
          " does not match include filter, skipping...") ::
        migrateLoop g a org total (index + 1) rest
    else if excludeSkips a repo.name then
      Event.print ("Repository " ++ repo.name ++
          " matches exclude filter, skipping...") ::
        migrateLoop g a org total (index + 1) rest
    else if hasKey (g.get_repository org repo.name) "id" then
      Event.get_repo org repo.name ::
        Event.print ("Repository " ++ repo.name ++ " exists in gitea, skipping...") ::
        migrateLoop g a org total (index + 1) rest
    else
      Event.get_repo org repo.name ::
      Event.migrate repo.clone_url org repo.name a.priv a.mirror a.wiki ::
      (let result := g.migrate_repository repo.clone_url org repo.name
          a.priv a.mirror a.wiki
       if hasKey result "message" then
         [Event.print ("Error: " ++ ((result.lookup "message").getD ""))]
       else
         Event.sleep :: migrateLoop g a org total (index + 1) rest)

/-- `main` from after the credential bootstrap and source listing: `user` is
`string_or_url(args.repository)`, `repolist` the fetched list,
`confirm_response` what `input()` would answer at the confirmation prompt.
The result is the trace of prints, destination API calls and sleeps that
`main` performs until it returns. -/
def mainRun (g : GiteaApi) (a : Args) (confirm_response : String)
    (user : String) (repolist : List Repo) : List Event :=
  let gitea_org := a.organization.getD user
  Event.print ("Backing up " ++ user ++ "\x27s repositories...") ::
  Event.print ("Got " ++ Nat.repr repolist.length ++ " repositories") ::
  Event.print "Checking if organization exists in gitea..." ::
  Event.get_org gitea_org ::
  if hasKey (g.get_organization gitea_org) "id" then
    Event.print ("WARNING: Organization " ++ gitea_org ++ " exists in gitea") ::
    if !(ask_confirmation "Clone repositories in existing organization?" a.yes
        confirm_response) then
      [Event.print "Aborting..."]
    else
      Event.print "Cloning repositories..." ::
        migrateLoop g a gitea_org repolist.length 0 repolist
  else
    let visibility := if a.priv || a.internal then "private" else "public"
    Event.print ("Creating organization " ++ gitea_org ++ " in gitea...") ::
    Event.create_org gitea_org visibility ::
    (let result := g.create_organization gitea_org visibility
     if hasKey result "message" then
       [Event.print ("Error: " ++ ((result.lookup "message").getD ""))]
     else
       Event.print "Cloning repositories..." ::
         migrateLoop g a gitea_org repolist.length 0 repolist)

/-- `main` including the source listing step: `get_repositories` raising
propagates out of `main` and terminates the run (`.error`), otherwise the
run continues with the fetched list. -/
def mainFromListing (http_get : String → ListResponse) (g : GiteaApi)
    (a : Args) (confirm_response : String) (user : String) :
    Except ReqError (List Event) :=
  match get_repositories http_get user with
  | .error e => .error e
  | .ok repolist => .ok (mainRun g a confirm_response user repolist)

/-! ## Trace observations -/

/-- The repository name carried by a migration event. -/
def migrateName : Event → Option String
  | .migrate _ _ n _ _ _ => some n
  | _ => none

/-- Is the event a migration call? -/
def isMigrateEvent : Event → Bool
  | .migrate _ _ _ _ _ _ => true
  | _ => false

/-- A migration event for a repository whose destination existence check (as
the oracle `g` answers it) carries an `id` field, i.e. a migration of an
already-existing repository. -/
def migrateOfExisting (g : GiteaApi) : Event → Bool
  | .migrate _ o n _ _ _ => hasKey (g.get_repository o n) "id"
  | _ => false

/-- A migration event whose `private` argument differs from the `--private`
flag. -/
def migratePrivMismatch (a : Args) : Event → Bool
  | .migrate _ _ _ p _ _ => p != a.priv
  | _ => false

/-- A migration event that requests `private = true`. -/
def migrateRequestedPrivate : Event → Bool
  | .migrate _ _ _ p _ _ => p
  | _ => false

/-- An organization-creation event whose visibility differs from
`'private' if args.private or args.internal else 'public'`. -/
def createVisibilityMismatch (a : Args) : Event → Bool
  | .create_org _ v => v != (if a.priv || a.internal then "private" else "public")
  | _ => false

/-- Every migration event in the trace is immediately preceded by the
existence check (`get_repo`) for the same owner and name; `prev` is the event
just before the trace (or `none` at the very start). -/
def migratesImmediatelyPreceded : Option Event → List Event → Bool
  | _, [] => true
  | prev, e :: rest =>
    (match e with
     | .migrate _ o n _ _ _ => prev == some (.get_repo o n)
     | _ => true) && migratesImmediatelyPreceded (some e) rest

/-! ## Concrete instances (used by the witness theorems) -/

/-- A sample source repository. -/
def exRepo1 : Repo := Repo.mk "repo1" "https://src/alice/repo1"

/-- A second sample source repository. -/
def exRepo2 : Repo := Repo.mk "repo2" "https://src/alice/repo2"

/-- A sample repository whose name does not start with `repo`. -/
def exRepoOther : Repo := Repo.mk "other" "https://src/alice/other"

/-- Arguments: only `--yes` set. -/
def exArgs : Args := Args.mk false false true false false none none none

/-- Arguments: nothing set (confirmation will be prompted). -/
def exArgsDecline : Args := Args.mk false false false false false none none none

/-- Arguments: `--yes` and `--internal` set. -/
def exArgsInternal : Args := Args.mk false false true true false none none none

/-- Arguments: `--yes` and `--include repo` set. -/
def exArgsInclude : Args :=
  Args.mk false false true false false (some (strLit "repo")) none none

/-- Arguments: `--yes` and `--exclude repo` set. -/
def exArgsExclude : Args :=
  Args.mk false false true false false none (some (strLit "repo")) none

/-- A destination where the organization exists and no repository does;
migrations succeed. -/
def exApiFresh : GiteaApi :=
  GiteaApi.mk (fun _ => [("id", "1")]) (fun _ _ => [("id", "1")])
    (fun _ _ => []) (fun _ _ _ _ _ _ => [("id", "7")])

/-- A destination where the organization does not exist yet; creation and
migrations succeed. -/
def exApiNoOrg : GiteaApi :=
  GiteaApi.mk (fun _ => []) (fun _ _ => [("id", "1")])
    (fun _ _ => []) (fun _ _ _ _ _ _ => [("id", "7")])

/-- A destination where every migration call fails with an error message. -/
def exApiMigrateFail : GiteaApi :=
  GiteaApi.mk (fun _ => [("id", "1")]) (fun _ _ => [("id", "1")])
    (fun _ _ => []) (fun _ _ _ _ _ _ => [("message", "boom")])

/-- A destination where every repository already exists. -/
def exApiRepoExists : GiteaApi :=
  GiteaApi.mk (fun _ => [("id", "1")]) (fun _ _ => [("id", "1")])
    (fun _ _ => [("id", "3")]) (fun _ _ _ _ _ _ => [("id", "7")])

/-- A source listing transport that answers 404 with an unparseable body. -/
def exHttpFail : String → ListResponse := fun _ => ListResponse.mk 404 none

/-- A source listing transport that answers 200 with two repositories. -/
def exHttpOk : String → ListResponse :=
  fun _ => ListResponse.mk 200 (some [exRepo1, exRepo2])

/-! ## Loop lemmas -/

theorem migrateLoop_nil (g : GiteaApi) (a : Args) (org : String) (total idx : Nat) :
    migrateLoop g a org total idx [] = [] := rfl

theorem filterMap_migrateName_sublist (g : GiteaApi) (a : Args) (org : String)
    (total : Nat) :
    ∀ (l : List Repo) (idx : Nat),
      List.Sublist ((migrateLoop g a org total idx l).filterMap migrateName)
        (l.map Repo.name) := by
  intro l
  induction l with
  | nil => intro idx; simp [migrateLoop]
  | cons r rest ih =>
    intro idx
    simp only [migrateLoop, List.map_cons]
    split
    · simpa [migrateName] using .cons _ (ih (idx + 1))
    · split
      · simpa [migrateName] using .cons _ (ih (idx + 1))
      · split
        · simpa [migrateName] using .cons _ (ih (idx + 1))
        · split
          · simp [migrateName]
          · simpa [migrateName] using ih (idx + 1)

theorem migratesImmediatelyPreceded_migrateLoop (g : GiteaApi) (a : Args)
    (org : String) (total : Nat) :
    ∀ (l : List Repo) (idx : Nat) (prev : Option Event),
      migratesImmediatelyPreceded prev (migrateLoop g a org total idx l) = true := by
  intro l
  induction l with
  | nil => intro idx prev; simp [migrateLoop, migratesImmediatelyPreceded]
  | cons r rest ih =>
    intro idx prev
    simp only [migrateLoop]
    split
    · simp [migratesImmediatelyPreceded, ih (idx + 1)]
    · split
      · simp [migratesImmediatelyPreceded, ih (idx + 1)]
      · split
        · simp [migratesImmediatelyPreceded, ih (idx + 1)]
        · split
          · simp [migratesImmediatelyPreceded]
          · simp [migratesImmediatelyPreceded, ih (idx + 1)]

theorem countP_migrateOfExisting_migrateLoop (g : GiteaApi) (a : Args)
    (org : String) (total : Nat) :
    ∀ (l : List Repo) (idx : Nat),
      (migrateLoop g a org total idx l).countP (migrateOfExisting g) = 0 := by
  intro l
  induction l with
  | nil => intro idx; simp [migrateLoop]
  | cons r rest ih =>
    intro idx
    simp only [migrateLoop]
    split
    · simp [List.countP_cons, migrateOfExisting, ih (idx + 1)]
    · split
      · simp [List.countP_cons, migrateOfExisting, ih (idx + 1)]
      · split
        · simp [List.countP_cons, migrateOfExisting, ih (idx + 1)]
        · split <;>
            rename_i hid _ <;>
            simp [List.countP_cons, migrateOfExisting, ih (idx + 1),
              Bool.not_eq_true] at hid ⊢ <;>
            simp [hid]

theorem countP_migratePrivMismatch_migrateLoop (g : GiteaApi) (a : Args)
    (org : String) (total : Nat) :
    ∀ (l : List Repo) (idx : Nat),
      (migrateLoop g a org total idx l).countP (migratePrivMismatch a) = 0 := by
  intro l
  induction l with
  | nil => intro idx; simp [migrateLoop]
  | cons r rest ih =>
    intro idx
    simp only [migrateLoop]
    split
    · simp [List.countP_cons, migratePrivMismatch, ih (idx + 1)]
    · split
      · simp [List.countP_cons, migratePrivMismatch, ih (idx + 1)]
      · split
        · simp [List.countP_cons, migratePrivMismatch, ih (idx + 1)]
        · split
          · simp [List.countP_cons, migratePrivMismatch]
          · simp [List.countP_cons, migratePrivMismatch, ih (idx + 1)]

theorem countP_createVisibilityMismatch_migrateLoop (g : GiteaApi) (a : Args)
    (org : String) (total : Nat) :
    ∀ (l : List Repo) (idx : Nat),
      (migrateLoop g a org total idx l).countP (createVisibilityMismatch a) = 0 := by
  intro l
  induction l with
  | nil => intro idx; simp [migrateLoop]
  | cons r rest ih =>
    intro idx
    simp only [migrateLoop]
    split
    · simp [List.countP_cons, createVisibilityMismatch, ih (idx + 1)]
    · split
      · simp [List.countP_cons, createVisibilityMismatch, ih (idx + 1)]
      · split
        · simp [List.countP_cons, createVisibilityMismatch, ih (idx + 1)]
        · split
          · simp [List.countP_cons, createVisibilityMismatch]
          · simp [List.countP_cons, createVisibilityMismatch, ih (idx + 1)]

/-! ## `mainRun` lemmas -/

theorem filterMap_migrateName_mainRun (g : GiteaApi) (a : Args)
    (resp user : String) (l : List Repo) :
    List.Sublist ((mainRun g a resp user l).filterMap migrateName)
      (l.map Repo.name) := by
  simp only [mainRun]
  split
  · split
    · simp [migrateName]
    · simpa [migrateName] using filterMap_migrateName_sublist g a _ _ l 0
  · split <;> split
    · simp [migrateName]
    · simpa [migrateName] using filterMap_migrateName_sublist g a _ _ l 0
    · simp [migrateName]
    · simpa [migrateName] using filterMap_migrateName_sublist g a _ _ l 0

theorem migratesImmediatelyPreceded_mainRun (g : GiteaApi) (a : Args)
    (resp user : String) (l : List Repo) :
    migratesImmediatelyPreceded none (mainRun g a resp user l) = true := by
  simp only [mainRun]
  split
  · split
    · simp [migratesImmediatelyPreceded]
    · simp [migratesImmediatelyPreceded,
        migratesImmediatelyPreceded_migrateLoop g a _ _ l 0]
  · split <;> split
    · simp [migratesImmediatelyPreceded]
    · simp [migratesImmediatelyPreceded,
        migratesImmediatelyPreceded_migrateLoop g a _ _ l 0]
    · simp [migratesImmediatelyPreceded]
    · simp [migratesImmediatelyPreceded,
        migratesImmediatelyPreceded_migrateLoop g a _ _ l 0]

theorem countP_migrateOfExisting_mainRun (g : GiteaApi) (a : Args)
    (resp user : String) (l : List Repo) :
    (mainRun g a resp user l).countP (migrateOfExisting g) = 0 := by
  simp only [mainRun]
  split
  · split
    · simp [migrateOfExisting]
    · simp [List.countP_cons, migrateOfExisting,
        countP_migrateOfExisting_migrateLoop g a _ _ l 0]
  · split <;> split
    · simp [migrateOfExisting]
    · simp [List.countP_cons, migrateOfExisting,
        countP_migrateOfExisting_migrateLoop g a _ _ l 0]
    · simp [migrateOfExisting]
    · simp [List.countP_cons, migrateOfExisting,
        countP_migrateOfExisting_migrateLoop g a _ _ l 0]

theorem countP_migratePrivMismatch_mainRun (g : GiteaApi) (a : Args)
    (resp user : String) (l : List Repo) :
    (mainRun g a resp user l).countP (migratePrivMismatch a) = 0 := by
  simp only [mainRun]
  split
  · split
    · simp [migratePrivMismatch]
    · simp [List.countP_cons, migratePrivMismatch,
        countP_migratePrivMismatch_migrateLoop g a _ _ l 0]
  · split <;> split
    · simp [migratePrivMismatch]
    · simp [List.countP_cons, migratePrivMismatch,
        countP_migratePrivMismatch_migrateLoop g a _ _ l 0]
    · simp [migratePrivMismatch]
    · simp [List.countP_cons, migratePrivMismatch,
        countP_migratePrivMismatch_migrateLoop g a _ _ l 0]

theorem countP_createVisibilityMismatch_mainRun (g : GiteaApi) (a : Args)
    (resp user : String) (l : List Repo) :
    (mainRun g a resp user l).countP (createVisibilityMismatch a) = 0 := by
  simp only [mainRun]
  split
  · split
    · simp [createVisibilityMismatch]
    · simp [List.countP_cons, createVisibilityMismatch,
        countP_createVisibilityMismatch_migrateLoop g a _ _ l 0]
  · split <;> rename_i hvis <;> split <;>
      simp [List.countP_cons, createVisibilityMismatch, hvis,
        countP_createVisibilityMismatch_migrateLoop g a _ _ l 0]

/-! ## Regular-expression and URL lemmas -/

theorem reMatch_iff (p : RegularExpression Char) (s : String) :
    reMatch p s = true ↔
      ∃ pre suf, s.data = pre ++ suf ∧ pre ∈ p.matches' := by
  unfold reMatch
  rw [List.any_eq_true]
  constructor
  · rintro ⟨n, _, hm⟩
    exact ⟨s.data.take n, s.data.drop n, (s.data.take_append_drop n).symm,
      (rmatch_iff_matches' p _).1 hm⟩
  · rintro ⟨pre, suf, hs, hmem⟩
    refine ⟨pre.length, ?_, ?_⟩
    · rw [List.mem_range]
      have : pre.length ≤ s.data.length := by
        rw [hs, List.length_append]; omega
      omega
    · rw [hs, List.take_left]
      exact (rmatch_iff_matches' p pre).2 hmem

theorem mem_charLit (w x : List Char) :
    x ∈ (charLit w).matches' ↔ x = w := by
  induction w generalizing x with
  | nil => simp [charLit, matches'_epsilon, Language.mem_one]
  | cons c cs ih =>
    simp only [charLit, matches'_mul, Language.mem_mul, matches'_char,
      Set.mem_singleton_iff]
    constructor
    · rintro ⟨a, rfl, b, hb, rfl⟩
      rw [ih] at hb
      rw [hb]
      rfl
    · rintro rfl
      exact ⟨[c], rfl, cs, (ih cs).2 rfl, rfl⟩

theorem mem_urlRegex (x : List Char) :
    x ∈ urlRegex.matches' ↔ x = "http://".data ∨ x = "https://".data := by
  simp only [urlRegex, strLit, matches'_mul, Language.mem_mul, matches'_add,
    matches'_char, matches'_epsilon, Language.mem_add, Language.mem_one,
    Set.mem_singleton_iff, mem_charLit]
  constructor
  · rintro ⟨a, ⟨b, rfl, c, hc, rfl⟩, d, rfl, rfl⟩
    rcases hc with rfl | rfl
    · right; rfl
    · left; rfl
  · rintro (rfl | rfl)
    · exact ⟨"http".data ++ [], ⟨"http".data, rfl, [], Or.inr rfl, rfl⟩,
        "://".data, rfl, by simp⟩
    · exact ⟨"http".data ++ ['s'], ⟨"http".data, rfl, ['s'], Or.inl rfl, rfl⟩,
        "://".data, rfl, by simp⟩

theorem is_url_iff (s : String) :
    is_url s = true ↔
      (∃ t, s.data = "http://".data ++ t) ∨
        (∃ t, s.data = "https://".data ++ t) := by
  rw [is_url, reMatch_iff]
  constructor
  · rintro ⟨pre, suf, hs, hmem⟩
    rcases (mem_urlRegex pre).1 hmem with rfl | rfl
    · exact Or.inl ⟨suf, hs⟩
    · exact Or.inr ⟨suf, hs⟩
  · rintro (⟨t, ht⟩ | ⟨t, ht⟩)
    · exact ⟨"http://".data, t, ht, (mem_urlRegex _).2 (Or.inl rfl)⟩
    · exact ⟨"https://".data, t, ht, (mem_urlRegex _).2 (Or.inr rfl)⟩

theorem pySplitSlash_ne_nil (l : List Char) : pySplitSlash l ≠ [] := by
  induction l with
  | nil => simp [pySplitSlash]
  | cons c cs ih =>
    simp only [pySplitSlash]
    split
    · simp
    · split <;> simp

theorem two_le_length_pySplitSlash :
    ∀ l : List Char, '/' ∈ l → 2 ≤ (pySplitSlash l).length := by
  intro l
  induction l with
  | nil => intro h; simp at h
  | cons c cs ih =>
    intro h
    simp only [pySplitSlash]
    cases heq : pySplitSlash cs with
    | nil => exact absurd heq (pySplitSlash_ne_nil cs)
    | cons hh tt =>
      by_cases hc : c = '/'
      · simp [hc]
      · have hmem : '/' ∈ cs := by
          rcases List.mem_cons.1 h with h1 | h1
          · exact absurd h1.symm hc
          · exact h1
        have h2 := ih hmem
        rw [heq] at h2
        simp only [List.length_cons] at h2
        simp [hc]
        omega

theorem is_url_two_le (s : String) (h : is_url s = true) :
    2 ≤ (pySplitSlash s.data).length := by
  apply two_le_length_pySplitSlash
  rcases (is_url_iff s).1 h with ⟨t, ht⟩ | ⟨t, ht⟩ <;> rw [ht] <;>
    exact List.mem_append_left _ (by decide)

/-! ## Claim theorems -/

/-- Claim C3: for every input string matching the URL shape (beginning with
`http://` or `https://`), `string_or_url` returns the second-to-last
slash-delimited segment of the input as the owner (the slash-split has at
least two segments, so that segment exists); for every input not matching
that shape, `string_or_url` returns the input string unchanged. -/
theorem c3_string_or_url (s : String) :
    ((∃ t, s.data = "http://".data ++ t) ∨ (∃ t, s.data = "https://".data ++ t) →
      2 ≤ (pySplitSlash s.data).length ∧
        string_or_url s =
          ((pySplitSlash s.data).get? ((pySplitSlash s.data).length - 2)).map
            String.mk)
    ∧ (¬((∃ t, s.data = "http://".data ++ t) ∨
          (∃ t, s.data = "https://".data ++ t)) →
        string_or_url s = some s) := by
  constructor
  · intro h
    have hu : is_url s = true := (is_url_iff s).2 h
    have h2 := is_url_two_le s hu
    refine ⟨h2, ?_⟩
    have hlt : (pySplitSlash s.data).length - 2 < (pySplitSlash s.data).length := by
      omega
    simp only [string_or_url, hu, if_true, get_user_from_url]
    rw [dif_pos h2, List.get?_eq_get hlt]
    rfl
  · intro h
    have hu : is_url s = false := by
      cases hiu : is_url s
      · rfl
      · exact absurd ((is_url_iff s).1 hiu) h
    simp [string_or_url, hu]

/-- Witness for C3: the spec example `https://host.example/alice/extra`, whose
owner segment is `alice`. -/
theorem c3_string_or_url_witness :
    2 ≤ (pySplitSlash "https://host.example/alice/extra".data).length ∧
      string_or_url "https://host.example/alice/extra" =
        ((pySplitSlash "https://host.example/alice/extra".data).get?
            ((pySplitSlash "https://host.example/alice/extra".data).length - 2)).map
          String.mk :=
  (c3_string_or_url "https://host.example/alice/extra").1
    (Or.inr ⟨"host.example/alice/extra".data, by decide⟩)

/-- Claim C6: `handle_response` returns the parsed body whenever the body
parses as JSON (in particular on every non-success status), propagates a
failure only when parsing fails, and on a non-200 status with an unparseable
body it raises the `raise_for_status` transport error when there is one. -/
theorem c6_handle_response (r : Response) (j : JsonObj) (e : ReqError) :
    (r.jsonBody = some j → handle_response r = .ok j)
  ∧ (handle_response r = .error e → r.jsonBody = none)
  ∧ (r.status_code ≠ 200 → r.jsonBody = none →
      handle_response r =
        .error ((raise_for_status r.status_code).getD .json_decode_error)) := by
  refine ⟨?_, ?_, ?_⟩
  · intro h
    simp only [handle_response, h]
    split <;> rfl
  · intro h
    cases hb : r.jsonBody with
    | none => rfl
    | some j' =>
      simp only [handle_response, hb] at h
      revert h
      split <;> simp
  · intro h200 hb
    simp only [handle_response, hb, if_pos h200]
    cases hrs : raise_for_status r.status_code <;> simp [hrs]

/-- Witness for C6: a 422 response with a parseable error body is returned as
the parsed body, not raised. -/
theorem c6_handle_response_witness :
    handle_response (Response.mk 422 (some [("message", "boom")])) =
      .ok [("message", "boom")] :=
  (c6_handle_response (Response.mk 422 (some [("message", "boom")]))
      [("message", "boom")] .json_decode_error).1 rfl

/-- Claim C7: a non-success (4xx/5xx) status on the source repository-listing
call makes `get_repositories` raise — and the raise propagates out of the run
(`mainFromListing` is an error, no partial result); a success (2xx) status
returns the parsed JSON list. -/
theorem c7_get_repositories (http_get : String → ListResponse) (owner : String)
    (l : List Repo) (g : GiteaApi) (a : Args) (resp : String) :
    (400 ≤ (http_get ("https://api.github.com/users/" ++ owner ++ "/repos")).status_code →
      (http_get ("https://api.github.com/users/" ++ owner ++ "/repos")).status_code < 600 →
      get_repositories http_get owner =
        .error (.http_error
          (http_get ("https://api.github.com/users/" ++ owner ++ "/repos")).status_code)
      ∧ mainFromListing http_get g a resp owner =
          .error (.http_error
            (http_get ("https://api.github.com/users/" ++ owner ++ "/repos")).status_code))
  ∧ (200 ≤ (http_get ("https://api.github.com/users/" ++ owner ++ "/repos")).status_code →
      (http_get ("https://api.github.com/users/" ++ owner ++ "/repos")).status_code < 300 →
      (http_get ("https://api.github.com/users/" ++ owner ++ "/repos")).jsonBody = some l →
      get_repositories http_get owner = .ok l) := by
  constructor
  · intro h4 h6
    have hs : raise_for_status
        (http_get ("https://api.github.com/users/" ++ owner ++ "/repos")).status_code =
        some (.http_error
          (http_get ("https://api.github.com/users/" ++ owner ++ "/repos")).status_code) := by
      simp [raise_for_status, h4, h6]
    constructor
    · simp only [get_repositories, hs]
    · simp only [mainFromListing, get_repositories, hs]
  · intro h2 h3 hb
    have hs : raise_for_status
        (http_get ("https://api.github.com/users/" ++ owner ++ "/repos")).status_code =
        none := by
      simp only [raise_for_status, ite_eq_right_iff]
      omega
    simp only [get_repositories, hs, hb]

/-- Witness for C7: a 404 on the listing call is raised as an HTTP error and
terminates the run. -/
theorem c7_get_repositories_witness :
    get_repositories exHttpFail "alice" = .error (.http_error 404)
    ∧ mainFromListing exHttpFail exApiFresh exArgs "" "alice" =
        .error (.http_error 404) :=
  (c7_get_repositories exHttpFail "alice" [] exApiFresh exArgs "").1
    (by decide) (by decide)

/-- Claim C10: `GiteaClient.__init__` raises a `ValueError` when the instance
or the token is `None`; an instance string not beginning with `http://` or
`https://` is stored with `https://` prepended, any other instance string is
stored unchanged. -/
theorem c10_giteaclient_init (i t : String) :
    (∀ tok, GiteaClient.init none tok = .error "instance cannot be None")
  ∧ GiteaClient.init (some i) none = .error "token cannot be None"
  ∧ (¬((∃ u, i.data = "http://".data ++ u) ∨
        (∃ u, i.data = "https://".data ++ u)) →
      GiteaClient.init (some i) (some t) = .ok (GiteaClient.mk ("https://" ++ i) t))
  ∧ (((∃ u, i.data = "http://".data ++ u) ∨
        (∃ u, i.data = "https://".data ++ u)) →
      GiteaClient.init (some i) (some t) = .ok (GiteaClient.mk i t)) := by
  refine ⟨fun tok => rfl, rfl, ?_, ?_⟩
  · intro h
    have hu : is_url i = false := by
      cases hiu : is_url i
      · rfl
      · exact absurd ((is_url_iff i).1 hiu) h
    simp [GiteaClient.init, hu]
  · intro h
    simp [GiteaClient.init, (is_url_iff i).2 h]

/-- Witness for C10: a bare host name gets `https://` prepended. -/
theorem c10_giteaclient_init_witness :
    GiteaClient.init (some "gitea.example.com") (some "tok") =
      .ok (GiteaClient.mk "https://gitea.example.com" "tok") :=
  (c10_giteaclient_init "gitea.example.com" "tok").2.2.1
    (fun h => absurd ((is_url_iff "gitea.example.com").2 h) (by decide))

/-- Claim C1: on a fetched source list (repository names are distinct), the
loop issues at most one migration per repository (the names of the migration
events in the trace are distinct), every migration event is immediately
preceded by the existence check for the same owner and name, a migration is
issued only when that check returned a body without an `id` field (so no
migration is ever issued for a repository whose check succeeded), and an item
whose existence check succeeds contributes only its check and prints, after
which the loop proceeds with the next item. -/
theorem c1_migrate_at_most_once (g : GiteaApi) (a : Args) (resp user : String)
    (l : List Repo) (hnodup : (l.map Repo.name).Nodup) :
    ((mainRun g a resp user l).filterMap migrateName).Nodup
  ∧ migratesImmediatelyPreceded none (mainRun g a resp user l) = true
  ∧ (mainRun g a resp user l).countP (migrateOfExisting g) = 0
  ∧ ∀ org total idx r rest,
      includeSkips a r.name = false → excludeSkips a r.name = false →
      hasKey (g.get_repository org r.name) "id" = true →
      migrateLoop g a org total idx (r :: rest) =
        Event.print ("Cloning " ++ r.name ++ " (" ++ Nat.repr (idx + 1) ++ "/" ++
            Nat.repr total ++ ")...") ::
          Event.get_repo org r.name ::
          Event.print ("Repository " ++ r.name ++ " exists in gitea, skipping...") ::
          migrateLoop g a org total (idx + 1) rest := by
  refine ⟨List.Nodup.sublist (filterMap_migrateName_mainRun g a resp user l) hnodup,
    migratesImmediatelyPreceded_mainRun g a resp user l,
    countP_migrateOfExisting_mainRun g a resp user l, ?_⟩
  intro org total idx r rest h1 h2 h3
  simp [migrateLoop, h1, h2, h3]

/-- Witness for C1: a destination that already has every repository — no
duplicate migrations, and in fact no migration of an existing repository. -/
theorem c1_migrate_at_most_once_witness :
    ([exRepo1, exRepo2].map Repo.name).Nodup ∧
      ((mainRun exApiRepoExists exArgs "" "alice" [exRepo1, exRepo2]).filterMap
          migrateName).Nodup ∧
      (mainRun exApiRepoExists exArgs "" "alice" [exRepo1, exRepo2]).countP
          (migrateOfExisting exApiRepoExists) = 0 :=
  ⟨by decide,
    (c1_migrate_at_most_once exApiRepoExists exArgs "" "alice" [exRepo1, exRepo2]
        (by decide)).1,
    (c1_migrate_at_most_once exApiRepoExists exArgs "" "alice" [exRepo1, exRepo2]
        (by decide)).2.2.1⟩

/-- Claim C2: when a migration call's result carries a `message` key, the
message is printed and `main` returns immediately: the loop trace ends right
after the failing call (no later item gets an existence check or a migration),
and a run whose first repository fails this way has the error print as its
very last event. -/
theorem c2_migration_error_stops (g : GiteaApi) (a : Args) (resp user : String) :
    (∀ org total idx r rest,
      includeSkips a r.name = false → excludeSkips a r.name = false →
      hasKey (g.get_repository org r.name) "id" = false →
      hasKey (g.migrate_repository r.clone_url org r.name a.priv a.mirror a.wiki)
          "message" = true →
      migrateLoop g a org total idx (r :: rest) =
        [Event.print ("Cloning " ++ r.name ++ " (" ++ Nat.repr (idx + 1) ++ "/" ++
            Nat.repr total ++ ")..."),
         Event.get_repo org r.name,
         Event.migrate r.clone_url org r.name a.priv a.mirror a.wiki,
         Event.print ("Error: " ++
           (((g.migrate_repository r.clone_url org r.name a.priv a.mirror
               a.wiki).lookup "message").getD ""))])
  ∧ (∀ r rest, a.yes = true →
      hasKey (g.get_organization (a.organization.getD user)) "id" = true →
      includeSkips a r.name = false → excludeSkips a r.name = false →
      hasKey (g.get_repository (a.organization.getD user) r.name) "id" = false →
      hasKey (g.migrate_repository r.clone_url (a.organization.getD user) r.name
          a.priv a.mirror a.wiki) "message" = true →
      mainRun g a resp user (r :: rest) =
        [Event.print ("Backing up " ++ user ++ "\x27s repositories..."),
         Event.print ("Got " ++ Nat.repr (rest.length + 1) ++ " repositories"),
         Event.print "Checking if organization exists in gitea...",
         Event.get_org (a.organization.getD user),
         Event.print ("WARNING: Organization " ++ (a.organization.getD user) ++
           " exists in gitea"),
         Event.print "Cloning repositories...",
         Event.print ("Cloning " ++ r.name ++ " (" ++ Nat.repr 1 ++ "/" ++
            Nat.repr (rest.length + 1) ++ ")..."),
         Event.get_repo (a.organization.getD user) r.name,
         Event.migrate r.clone_url (a.organization.getD user) r.name a.priv
           a.mirror a.wiki,
         Event.print ("Error: " ++ (((g.migrate_repository r.clone_url
             (a.organization.getD user) r.name a.priv a.mirror a.wiki).lookup
             "message").getD ""))]) := by
  constructor
  · intro org total idx r rest h1 h2 h3 h4
    simp [migrateLoop, h1, h2, h3, h4]
  · intro r rest hyes hex h1 h2 h3 h4
    simp [mainRun, ask_confirmation, hyes, hex, migrateLoop, h1, h2, h3, h4]

/-- Witness for C2: with two listed repositories and a destination whose
migration endpoint fails, the run stops after the first migration call; the
second repository is never touched. -/
theorem c2_migration_error_stops_witness :
    mainRun exApiMigrateFail exArgs "" "alice" [exRepo1, exRepo2] =
      [Event.print "Backing up alice\x27s repositories...",
       Event.print "Got 2 repositories",
       Event.print "Checking if organization exists in gitea...",
       Event.get_org "alice",
       Event.print "WARNING: Organization alice exists in gitea",
       Event.print "Cloning repositories...",
       Event.print "Cloning repo1 (1/2)...",
       Event.get_repo "alice" "repo1",
       Event.migrate "https://src/alice/repo1" "alice" "repo1" false false false,
       Event.print "Error: boom"] := by
  have h := (c2_migration_error_stops exApiMigrateFail exArgs "" "alice").2 exRepo1
    [exRepo2] rfl (by decide) (by decide) (by decide) (by decide) (by decide)
  exact h.trans (by decide)

/-- Claim C4: an item that an active include filter fails to match, or that an
active exclude filter matches, is skipped with only its two prints — no
existence check and no migration call are issued for it — and the loop
continues with the remaining items.  (The two filters are mutually exclusive
on the command line, so the exclude conjunct assumes no include filter.) -/
theorem c4_filter_skips (g : GiteaApi) (a : Args) (org : String) (total : Nat) :
    (∀ idx r rest pat, a.include_pat = some pat → reMatch pat r.name = false →
      migrateLoop g a org total idx (r :: rest) =
        Event.print ("Cloning " ++ r.name ++ " (" ++ Nat.repr (idx + 1) ++ "/" ++
            Nat.repr total ++ ")...") ::
          Event.print ("Repository " ++ r.name ++
            " does not match include filter, skipping...") ::
          migrateLoop g a org total (idx + 1) rest)
  ∧ (∀ idx r rest pat, a.include_pat = none → a.exclude_pat = some pat →
      reMatch pat r.name = true →
      migrateLoop g a org total idx (r :: rest) =
        Event.print ("Cloning " ++ r.name ++ " (" ++ Nat.repr (idx + 1) ++ "/" ++
            Nat.repr total ++ ")...") ::
          Event.print ("Repository " ++ r.name ++
            " matches exclude filter, skipping...") ::
          migrateLoop g a org total (idx + 1) rest) := by
  constructor
  · intro idx r rest pat hp hm
    have h1 : includeSkips a r.name = true := by simp [includeSkips, hp, hm]
    simp [migrateLoop, h1]
  · intro idx r rest pat hip hp hm
    have h1 : includeSkips a r.name = false := by simp [includeSkips, hip]
    have h2 : excludeSkips a r.name = true := by simp [excludeSkips, hp, hm]
    simp [migrateLoop, h1, h2]

/-- Witness for C4: with include filter `repo`, the item named `other` is
skipped with two prints and the loop moves on to `repo1`. -/
theorem c4_filter_skips_witness :
    migrateLoop exApiFresh exArgsInclude "alice" 2 0 [exRepoOther, exRepo1] =
      Event.print ("Cloning " ++ exRepoOther.name ++ " (" ++ Nat.repr 1 ++ "/" ++
          Nat.repr 2 ++ ")...") ::
        Event.print ("Repository " ++ exRepoOther.name ++
          " does not match include filter, skipping...") ::
        migrateLoop exApiFresh exArgsInclude "alice" 2 1 [exRepo1] :=
  (c4_filter_skips exApiFresh exArgsInclude "alice" 2).1 0 exRepoOther [exRepo1]
    (strLit "repo") rfl (by decide)

/-- Claim C5: when the destination organization already exists, `--yes` is not
set and the user declines the confirmation, `main` returns before the
migration loop: the trace is exactly the bootstrap prints, the organization
lookup and the abort message, and it contains no migration call. -/
theorem c5_decline_aborts (g : GiteaApi) (a : Args) (resp user : String)
    (l : List Repo)
    (hex : hasKey (g.get_organization (a.organization.getD user)) "id" = true)
    (hyes : a.yes = false)
    (hresp : (pyLower resp == "y") = false) :
    mainRun g a resp user l =
      [Event.print ("Backing up " ++ user ++ "\x27s repositories..."),
       Event.print ("Got " ++ Nat.repr l.length ++ " repositories"),
       Event.print "Checking if organization exists in gitea...",
       Event.get_org (a.organization.getD user),
       Event.print ("WARNING: Organization " ++ (a.organization.getD user) ++
         " exists in gitea"),
       Event.print "Aborting..."]
    ∧ (mainRun g a resp user l).countP isMigrateEvent = 0 := by
  have heq : mainRun g a resp user l =
      [Event.print ("Backing up " ++ user ++ "\x27s repositories..."),
       Event.print ("Got " ++ Nat.repr l.length ++ " repositories"),
       Event.print "Checking if organization exists in gitea...",
       Event.get_org (a.organization.getD user),
       Event.print ("WARNING: Organization " ++ (a.organization.getD user) ++
         " exists in gitea"),
       Event.print "Aborting..."] := by
    simp [mainRun, ask_confirmation, hex, hyes, hresp]
  exact ⟨heq, by rw [heq]; rfl⟩

/-- Witness for C5: the user answers `n`, so the run aborts with no migration
call. -/
theorem c5_decline_aborts_witness :
    mainRun exApiFresh exArgsDecline "n" "alice" [exRepo1] =
      [Event.print "Backing up alice\x27s repositories...",
       Event.print "Got 1 repositories",
       Event.print "Checking if organization exists in gitea...",
       Event.get_org "alice",
       Event.print "WARNING: Organization alice exists in gitea",
       Event.print "Aborting..."]
    ∧ (mainRun exApiFresh exArgsDecline "n" "alice" [exRepo1]).countP
        isMigrateEvent = 0 := by
  have h := c5_decline_aborts exApiFresh exArgsDecline "n" "alice" [exRepo1]
    (by decide) rfl (by decide)
  exact ⟨h.1.trans (by decide), h.2⟩

/-- Claim C8: the filters use `re.match` semantics — a name matches iff the
pattern matches some prefix of the name (anchored at the start, not
necessarily the whole name).  Concretely, the pattern `repo` matches
`repository` although not as a whole string, so an include filter `repo`
keeps `repository`, and an exclude filter `repo` drops `repo2`. -/
theorem c8_rematch_semantics (p : RegularExpression Char) (name : String) :
    (reMatch p name = true ↔
      ∃ pre suf, name.data = pre ++ suf ∧ pre ∈ p.matches')
  ∧ reMatch (strLit "repo") "repository" = true
  ∧ (strLit "repo").rmatch "repository".data = false
  ∧ includeSkips exArgsInclude "repository" = false
  ∧ excludeSkips exArgsExclude "repo2" = true :=
  ⟨reMatch_iff p name, by decide, by decide, by decide, by decide⟩

/-- Claim C9: every migration call passes exactly the `--private` flag as its
`private` argument, the organization is created with visibility `private`
exactly when `--private` or `--internal` is set (`public` otherwise), and
hence with `--private` unset (e.g. only `--internal` set) every migration
requests `private = false`. -/
theorem c9_visibility_flags (g : GiteaApi) (a : Args) (resp user : String)
    (l : List Repo) :
    (mainRun g a resp user l).countP (migratePrivMismatch a) = 0
  ∧ (mainRun g a resp user l).countP (createVisibilityMismatch a) = 0
  ∧ (a.priv = false →
      (mainRun g a resp user l).countP migrateRequestedPrivate = 0) := by
  refine ⟨countP_migratePrivMismatch_mainRun g a resp user l,
    countP_createVisibilityMismatch_mainRun g a resp user l, ?_⟩
  intro hp
  rw [List.countP_eq_zero]
  intro e he
  have h0 := List.countP_eq_zero.1
    (countP_migratePrivMismatch_mainRun g a resp user l) e he
  cases e with
  | print m => simp [migrateRequestedPrivate]
  | get_org n => simp [migrateRequestedPrivate]
  | create_org n v => simp [migrateRequestedPrivate]
  | get_repo o n => simp [migrateRequestedPrivate]
  | migrate ca o n p m w =>
    simp only [migratePrivMismatch, bne_iff_ne, ne_eq, Decidable.not_not] at h0
    simp [migrateRequestedPrivate, h0, hp]
  | sleep => simp [migrateRequestedPrivate]

/-- Witness for C9: only `--internal` set — the organization is created with
`private` visibility and no migration requests `private = true`. -/
theorem c9_visibility_flags_witness :
    exArgsInternal.priv = false ∧
      (mainRun exApiNoOrg exArgsInternal "" "alice" [exRepo1]).countP
          migrateRequestedPrivate = 0 ∧
      (mainRun exApiNoOrg exArgsInternal "" "alice" [exRepo1]).countP
          (createVisibilityMismatch exArgsInternal) = 0 :=
  ⟨rfl,
    (c9_visibility_flags exApiNoOrg exArgsInternal "" "alice" [exRepo1]).2.2 rfl,
    (c9_visibility_flags exApiNoOrg exArgsInternal "" "alice" [exRepo1]).2.1⟩

end Gitbackup
